import Mathlib

/-!
Shallow embedding of the AI recommendation pipeline in
`app/services/AIRecommendationService.py` (class `AIRecommendationService`).

Modelling conventions:
* Python floats are modelled as exact rationals (`ℚ`); the arithmetic the
  pipeline performs (sums, `min`/`max`, `round`, `int`) is exactly
  representable on every input the claims use.
* Python `dict`s with a fixed key set are modelled as structures; a key that
  may be absent or `None` becomes an `Option` field.  Where the source reads
  the same logical attribute under a snake_case and a camelCase key
  (`time_slot`/`timeSlot`, `lat`/`latitude`, ...) the two spellings are
  collapsed into a single field, since the source always writes and pops both
  spellings together.
* Exceptions are modelled with `Except`/`Option`: a per-candidate
  feature-build failure is `Option.none` from the builder oracle, the fatal
  model-not-loaded errors are `Except.error`.
* All external collaborators (catalog search, batch fetch, feature builder,
  regressor, SVD model, rationale generator) are oracle functions gathered in
  an environment structure; the pipeline is a pure function of that
  environment.
-/

namespace ItDa

/-! ### Python string primitives (ASCII case folding, strip, substring) -/

/-- Python `str.lower()` restricted to ASCII; the Korean strings the service
manipulates have no case, so this matches CPython on every input in scope. -/
def lowerChar (c : Char) : Char :=
  if 65 ≤ c.toNat ∧ c.toNat ≤ 90 then Char.ofNat (c.toNat + 32) else c

/-- Python `str.upper()` restricted to ASCII (Korean characters are caseless). -/
def upperChar (c : Char) : Char :=
  if 97 ≤ c.toNat ∧ c.toNat ≤ 122 then Char.ofNat (c.toNat - 32) else c

def pyLower (s : String) : String := String.mk (s.data.map lowerChar)

def pyUpper (s : String) : String := String.mk (s.data.map upperChar)

def isSpaceChar (c : Char) : Bool :=
  c == ' ' || c == '\t' || c == '\n' || c == '\r'

/-- Python `str.strip()` (whitespace at both ends). -/
def pyStrip (s : String) : String :=
  String.mk (((s.data.dropWhile isSpaceChar).reverse.dropWhile isSpaceChar).reverse)

/-- `needle` is a prefix of `hay` (on character lists). -/
def charPrefix : List Char → List Char → Bool
  | [], _ => true
  | _ :: _, [] => false
  | a :: as, b :: bs => a == b && charPrefix as bs

/-- Python `needle in hay` substring test. -/
def charInfix (needle : List Char) : List Char → Bool
  | [] => charPrefix needle []
  | b :: bs => charPrefix needle (b :: bs) || charInfix needle bs

/-- Python `sub in s` on strings. -/
def strContains (s sub : String) : Bool := charInfix sub.data s.data

/-- Python `" ".join(xs)`. -/
def spaceJoin (xs : List String) : String := String.intercalate " " xs

/-! ### Python numeric primitives -/

/-- Python `int(x)`: truncation toward zero. -/
def pyInt (x : ℚ) : ℤ := if 0 ≤ x then ⌊x⌋ else ⌈x⌉

/-- Python `round(x)`: round half to even (banker's rounding). -/
def pyRound (x : ℚ) : ℤ :=
  let f := ⌊x⌋
  let r := x - (f : ℚ)
  if r < 1/2 then f
  else if 1/2 < r then f + 1
  else if f % 2 = 0 then f else f + 1

/-- Python `round(x, n)` for `n` decimal digits. -/
def pyRoundTo (x : ℚ) (n : ℕ) : ℚ := (pyRound (x * (10 : ℚ) ^ n) : ℚ) / (10 : ℚ) ^ n

/-- Python `a or b` on optional strings: `None` and `""` are falsy. -/
def pyOrS (a b : Option String) : Option String :=
  match a with
  | none => b
  | some s => if s = "" then b else some s

/-- Python `x or d` giving a string default. -/
def pyOrSD (a : Option String) (d : String) : String :=
  match a with
  | none => d
  | some s => if s = "" then d else s

/-- Python `x or d` on optional integers (`0` is falsy). -/
def pyOrID (a : Option ℤ) (d : ℤ) : ℤ :=
  match a with
  | none => d
  | some v => if v = 0 then d else v

/-- Python `x or d` on optional rationals (`0.0` is falsy). -/
def pyOrQD (a : Option ℚ) (d : ℚ) : ℚ :=
  match a with
  | none => d
  | some v => if v = 0 then d else v

/-! ### Normalizers (`_normalize_timeslot`, `_normalize_location_type`,
`_normalize_budget_for_model`) -/

/-- Assoc-list lookup, modelling Python `dict.get(key)` on a literal dict. -/
def lookupStr (k : String) : List (String × String) → Option String
  | [] => none
  | (a, b) :: rest => if a = k then some b else lookupStr k rest

def timeslotMapping : List (String × String) :=
  [("morning", "MORNING"), ("afternoon", "AFTERNOON"), ("evening", "EVENING"),
   ("night", "NIGHT"),
   ("오전", "MORNING"), ("아침", "MORNING"), ("점심", "AFTERNOON"),
   ("오후", "AFTERNOON"), ("저녁", "EVENING"), ("밤", "NIGHT"), ("야간", "NIGHT")]

/-- `_normalize_timeslot`: `None`/`""` ↦ `None`; otherwise strip, look the
lower-cased value up in the mapping, and default to the upper-cased input. -/
def normalizeTimeslot (ts : Option String) : Option String :=
  match ts with
  | none => none
  | some s =>
    if s = "" then none
    else
      let raw := pyStrip s
      let lower := pyLower raw
      some ((lookupStr lower timeslotMapping).getD (pyUpper raw))

def locationTypeMapping : List (String × String) :=
  [("indoor", "INDOOR"), ("outdoor", "OUTDOOR"),
   ("실내", "INDOOR"), ("실외", "OUTDOOR"), ("야외", "OUTDOOR")]

/-- `_normalize_location_type`. -/
def normalizeLocationType (lt : Option String) : Option String :=
  match lt with
  | none => none
  | some s =>
    if s = "" then none
    else
      let raw := pyStrip s
      let lower := pyLower raw
      some ((lookupStr lower locationTypeMapping).getD (pyUpper raw))

def budgetMapping : List (String × String) :=
  [("VALUE", "value"), ("value", "value"), ("가성비", "value"), ("합리", "value"),
   ("QUALITY", "quality"), ("quality", "quality"), ("품질", "quality")]

/-- `_normalize_budget_for_model`: always returns a value, default `"value"`. -/
def normalizeBudgetForModel (bt : Option String) : String :=
  match bt with
  | none => "value"
  | some s =>
    if s = "" then "value"
    else
      let raw := pyStrip s
      ((lookupStr raw budgetMapping).orElse (fun _ =>
        (lookupStr (pyUpper raw) budgetMapping).orElse (fun _ =>
          lookupStr (pyLower raw) budgetMapping))).getD "value"

/-! ### Data model -/

/-- The enriched/parsed query dict (`parse_search_query` /
`enrich_with_user_context` output).  `time_slot`/`timeSlot` and
`locationType`/`location_type` key pairs are collapsed: the source reads and
removes both spellings together. -/
structure Query where
  keyword : Option String := none
  keywords : List String := []
  category : Option String := none
  subcategory : Option String := none
  vibe : Option String := none
  timeSlot : Option String := none
  locationType : Option String := none
  radius : Option ℚ := none
  confidence : Option ℚ := none
  deriving DecidableEq, Repr

/-- The user-context dict returned by `/api/users/{id}/context` (or the
default substituted on failure); snake/camel key pairs collapsed. -/
structure UserCtx where
  user_id : Option ℤ := none
  lat : Option ℚ := none
  lng : Option ℚ := none
  interests : Option String := none
  time_preference : Option String := none
  user_location_pref : Option String := none
  budget_type : Option String := none
  user_avg_rating : Option ℚ := none
  user_meeting_count : Option ℤ := none
  user_rating_std : Option ℚ := none
  deriving DecidableEq, Repr

/-- A raw meeting record as returned by the Spring catalog (search or batch
fetch); snake/camel key pairs collapsed into one optional field. -/
structure RawMeeting where
  meeting_id : Option ℤ := none
  latitude : Option ℚ := none
  longitude : Option ℚ := none
  category : Option String := none
  subcategory : Option String := none
  time_slot : Option String := none
  location_type : Option String := none
  vibe : Option String := none
  max_participants : Option ℤ := none
  current_participants : Option ℤ := none
  expected_cost : Option ℚ := none
  avg_rating : Option ℚ := none
  rating_count : Option ℤ := none
  distance_km : Option ℚ := none
  title : Option String := none
  image_url : Option String := none
  location_name : Option String := none
  location_address : Option String := none
  meeting_time : Option String := none
  deriving DecidableEq, Repr

/-- `_normalize_meeting` output: the FeatureBuilder input standard. -/
structure NormMeeting where
  meeting_id : Option ℤ
  lat : Option ℚ
  lng : Option ℚ
  category : String
  subcategory : String
  time_slot : Option String
  meeting_location_type : Option String
  vibe : String
  max_participants : ℤ
  meeting_participant_count : ℤ
  expected_cost : ℚ
  meeting_avg_rating : ℚ
  meeting_rating_count : ℤ
  distance_km : Option ℚ
  title : Option String
  image_url : Option String
  location_name : Option String
  location_address : Option String
  meeting_time : Option String
  current_participants : Option ℤ
  deriving DecidableEq, Repr

/-- `_normalize_meeting`: Spring response → FeatureBuilder input, with the
source's `or`-defaults (Python falsiness: `0`, `""`, `None` all fall through). -/
def normalizeMeeting (m : RawMeeting) : NormMeeting :=
  { meeting_id := m.meeting_id
    lat := m.latitude
    lng := m.longitude
    category := pyOrSD m.category ""
    subcategory := pyOrSD m.subcategory ""
    time_slot := normalizeTimeslot m.time_slot
    meeting_location_type := normalizeLocationType m.location_type
    vibe := pyOrSD m.vibe ""
    max_participants := pyOrID m.max_participants 10
    meeting_participant_count := pyOrID m.current_participants 0
    expected_cost := pyOrQD m.expected_cost 0
    meeting_avg_rating := pyOrQD m.avg_rating 0
    meeting_rating_count := pyOrID m.rating_count 0
    distance_km := m.distance_km
    title := m.title
    image_url := m.image_url
    location_name := m.location_name
    location_address := m.location_address
    meeting_time := m.meeting_time
    current_participants := m.current_participants }

/-! ### Intent (`_detect_intent`, `_apply_intent_adjustment`) -/

def quietWords : List String :=
  ["조용", "쉬", "힐링", "편하게", "여유", "카페", "대화", "산책", "전시", "독서", "쉬고"]

def activeWords : List String :=
  ["러닝", "운동", "뛰", "배드민턴", "축구", "헬스", "등산", "클라이밍"]

/-- `_detect_intent`: keyword scan over the lower-cased prompt (QUIET before
ACTIVE), then the parsed `vibe` attribute, else NEUTRAL. -/
def detectIntent (userPrompt : String) (parsedQuery : Query) : String :=
  let t := pyLower userPrompt
  if quietWords.any (fun w => strContains t w) then "QUIET"
  else if activeWords.any (fun w => strContains t w) then "ACTIVE"
  else if parsedQuery.vibe = some "힐링" ∨ parsedQuery.vibe = some "여유로운" then "QUIET"
  else "NEUTRAL"

/-- `_apply_intent_adjustment`: signed additive correction from
(intent, category, subcategory).  `cat`/`sub` are read with `or ""`. -/
def applyIntentAdjustment (intent : String) (cat sub : String) : ℚ :=
  if intent = "QUIET" ∧ cat = "스포츠" then -25
  else if intent = "QUIET" ∧ (cat = "카페" ∨ cat = "문화" ∨ cat = "취미" ∨
      sub = "독서" ∨ sub = "보드게임" ∨ sub = "전시" ∨ sub = "스터디") then 15
  else if intent = "ACTIVE" ∧ cat = "스포츠" then 15
  else if intent = "ACTIVE" ∧ (cat = "카페" ∨ cat = "문화") then -10
  else 0

/-! ### Search payload builder -/

/-- `_should_apply_time_slot`: non-null and confidence ≥ 0.9. -/
def shouldApplyTimeSlot (q : Query) : Prop :=
  q.timeSlot ≠ none ∧ 9/10 ≤ q.confidence.getD 0

instance : DecidablePred shouldApplyTimeSlot := fun q => by
  unfold shouldApplyTimeSlot; infer_instance

/-- `_should_apply_vibe`: non-null and confidence ≥ 0.9. -/
def shouldApplyVibe (q : Query) : Prop :=
  q.vibe ≠ none ∧ 9/10 ≤ q.confidence.getD 0

instance : DecidablePred shouldApplyVibe := fun q => by
  unfold shouldApplyVibe; infer_instance

/-- `_infer_location_type`: look for indoor/outdoor markers in the joined
keyword text. -/
def inferLocationType (q : Query) : Option String :=
  let text := spaceJoin q.keywords
  if strContains text "실내" then some "INDOOR"
  else if strContains text "야외" || strContains text "실외" then some "OUTDOOR"
  else none

/-- The payload dict sent to `/api/meetings/search`, after the
`v is not None and v != ""` filter; optional fields model present keys. -/
structure SearchPayload where
  keyword : Option String
  category : Option String
  subcategory : Option String
  latitude : Option ℚ
  longitude : Option ℚ
  radius : Option ℚ
  locationType : Option String
  vibe : Option String
  timeSlot : Option String
  page : ℕ := 0
  size : ℕ := 200
  sortBy : String := "createdAt"
  sortDirection : String := "desc"
  deriving DecidableEq, Repr

/-- The `v is not None and v != ""` strip on string values. -/
def stripEmpty (o : Option String) : Option String :=
  match o with
  | none => none
  | some s => if s = "" then none else some s

/-- `_to_spring_search_request`: project enriched query + user context into
the canonical catalog search payload. -/
def toSpringSearchRequest (q : Query) (ctx : UserCtx) : SearchPayload :=
  let keyword :=
    match pyOrS q.keyword none with
    | some k => some k
    | none => if q.keywords ≠ [] then some (spaceJoin q.keywords) else none
  let rawLocationType := pyOrS q.locationType (inferLocationType q)
  let locationType := normalizeLocationType rawLocationType
  let timeSlot := normalizeTimeslot q.timeSlot
  { keyword := stripEmpty keyword
    category := stripEmpty q.category
    subcategory := stripEmpty q.subcategory
    latitude := ctx.lat
    longitude := ctx.lng
    radius := some (q.radius.getD 5)
    locationType := stripEmpty locationType
    vibe := stripEmpty q.vibe
    timeSlot := stripEmpty timeSlot }

/-! ### Relaxation search (`_search_with_relaxation`)

The catalog oracle `search : SearchPayload → List RawMeeting` already folds
in `_search_meetings`' error handling (non-200 or transport error ↦ `[]`). -/

structure TraceStep where
  level : ℕ
  label : String
  payload : SearchPayload
  count : ℕ
  deriving DecidableEq, Repr

/-- L1 query: L0 with `vibe` removed. -/
def relaxQ1 (q : Query) : Query := { q with vibe := none }

/-- L2 query: L1 with `time_slot`/`timeSlot` removed. -/
def relaxQ2 (q : Query) : Query := { relaxQ1 q with timeSlot := none }

/-- L3 query: L2 with `subcategory` removed. -/
def relaxQ3 (q : Query) : Query := { relaxQ2 q with subcategory := none }

/-- L4 query: L3 with `category` removed (the source copies `q3`, not `q2`). -/
def relaxQ4 (q : Query) : Query := { relaxQ3 q with category := none }

/-- `_search_with_relaxation`: try L0..L4 in order, stop at the first
non-empty result; every attempt appends one `TraceStep`. -/
def relaxSearch (search : SearchPayload → List RawMeeting) (q : Query)
    (ctx : UserCtx) : List RawMeeting × List TraceStep :=
  let p0 := toSpringSearchRequest q ctx
  let c0 := search p0
  let t0 : TraceStep := ⟨0, "L0 원본", p0, c0.length⟩
  if c0 ≠ [] then (c0, [t0]) else
  let p1 := toSpringSearchRequest (relaxQ1 q) ctx
  let c1 := search p1
  let t1 : TraceStep := ⟨1, "L1 vibe 제거", p1, c1.length⟩
  if c1 ≠ [] then (c1, [t0, t1]) else
  let p2 := toSpringSearchRequest (relaxQ2 q) ctx
  let c2 := search p2
  let t2 : TraceStep := ⟨2, "L2 timeSlot 제거", p2, c2.length⟩
  if c2 ≠ [] then (c2, [t0, t1, t2]) else
  let p3 := toSpringSearchRequest (relaxQ3 q) ctx
  let c3 := search p3
  let t3 : TraceStep := ⟨3, "L3 subcategory 제거", p3, c3.length⟩
  if c3 ≠ [] then (c3, [t0, t1, t2, t3]) else
  let p4 := toSpringSearchRequest (relaxQ4 q) ctx
  let c4 := search p4
  let t4 : TraceStep := ⟨4, "L4 category 제거", p4, c4.length⟩
  (c4, [t0, t1, t2, t3, t4])

/-! ### Scoring (`_score_meetings`) -/

/-- Feature-vector row handed to the regressor (`x[0]`). -/
abbrev Row := List ℚ

/-- The named sub-scores of the feature dict used for key points. -/
structure Feat where
  distance_km : Option ℚ := none
  time_match : Option ℚ := none
  location_type_match : Option ℚ := none
  cost_match_score : Option ℚ := none
  interest_match_score : Option ℚ := none
  deriving DecidableEq, Repr

/-- `_build_key_points_from_feat` (the interpolated distance figure in the
first label is elided; only presence and order of points are modelled). -/
def buildKeyPointsFromFeat (feat : Feat) : List String :=
  ((if feat.distance_km.getD 999 ≤ 3 then ["가까운 거리"] else []) ++
   (if feat.time_match = some 1 then ["선호 시간대 일치"] else []) ++
   (if feat.location_type_match = some 1 then ["실내/야외 선호 일치"] else []) ++
   (if 7/10 ≤ feat.cost_match_score.getD 0 then ["예산에 잘 맞음"] else []) ++
   (if 1/2 ≤ feat.interest_match_score.getD 0 then ["관심사 매칭"] else [])).take 3

/-- The `user` dict built at the top of `_score_meetings` from the context
via `pick` (first non-`None` key) and the normalizers. -/
structure UserModel where
  lat : Option ℚ
  lng : Option ℚ
  interests : String
  time_preference : Option String
  user_location_pref : Option String
  budget_type : String
  user_avg_rating : ℚ
  user_meeting_count : ℤ
  user_rating_std : ℚ
  deriving DecidableEq, Repr

def buildUserModel (ctx : UserCtx) : UserModel :=
  { lat := ctx.lat
    lng := ctx.lng
    interests := ctx.interests.getD ""
    time_preference := normalizeTimeslot ctx.time_preference
    user_location_pref := ctx.user_location_pref
    budget_type := normalizeBudgetForModel (some (ctx.budget_type.getD "value"))
    user_avg_rating := ctx.user_avg_rating.getD 3
    user_meeting_count := ctx.user_meeting_count.getD 0
    user_rating_std := ctx.user_rating_std.getD (1/2) }

/-- The loaded-model singletons (`model_loader`): readiness flags plus the
feature-builder, regressor and SVD oracles.  A feature-build exception is
`none`. -/
structure ModelLoader where
  regressorLoaded : Bool
  featureBuilderLoaded : Bool
  svdLoaded : Bool
  build : UserModel → NormMeeting → Option (Feat × Row)
  predict : List Row → List ℚ
  svdRecommend : ℤ → ℕ → List (ℤ × ℚ)

/-- Rating → score map of `_score_meetings`:
`int(max(0, min(100, round((rating - 1) / 4 * 100))))`. -/
def matchScoreOfRating (p : ℚ) : ℤ :=
  max 0 (min 100 (pyRound ((p - 1) / 4 * 100)))

/-- A scored recommendation dict.  The spread `{**m, ...}` carries the whole
meeting record; here only the fields the pipeline reads afterwards
(`meeting_id`, `category`, `subcategory`) are kept, as the original dict
values. -/
structure ScoredRec where
  meeting_id : Option ℤ
  category : Option String
  subcategory : Option String
  predicted_rating : ℚ
  match_score : ℤ
  key_points : List String
  svd_score : Option ℚ := none
  intent : String := ""
  reasoning : String := ""
  deriving DecidableEq, Repr

/-- `_score_meetings`: fatal if the regressor or feature builder is not
loaded; per-candidate build failures are skipped; `[]` when nothing was
featured; otherwise batch-predict and map ratings to scores. -/
def scoreMeetings (M : ModelLoader) (user_context : UserCtx)
    (candidate_meetings : List RawMeeting) : Except String (List ScoredRec) :=
  if ¬ M.regressorLoaded then
    .error "LightGBM Regressor 모델이 로드되지 않았습니다."
  else if ¬ M.featureBuilderLoaded then
    .error "FeatureBuilder가 로드되지 않았습니다."
  else
    let user := buildUserModel user_context
    let built := candidate_meetings.filterMap (fun raw =>
      (M.build user (normalizeMeeting raw)).map (fun fx =>
        (normalizeMeeting raw, fx.1, fx.2)))
    if built.isEmpty then .ok []
    else
      let preds := M.predict (built.map (fun t => t.2.2))
      .ok ((built.zip preds).map (fun bp =>
        { meeting_id := bp.1.1.meeting_id
          category := some bp.1.1.category
          subcategory := some bp.1.1.subcategory
          predicted_rating := pyRoundTo bp.2 3
          match_score := matchScoreOfRating bp.2
          key_points := buildKeyPointsFromFeat bp.1.2.1 }))

/-! ### Intent adjustment application (lines 292 and 313) -/

/-- `_apply_intent_adjustment` applied to a scored dict (`meeting.get(...)
or ""` reads). -/
def intentAdjustmentOf (intent : String) (rec : ScoredRec) : ℚ :=
  applyIntentAdjustment intent (pyOrSD rec.category "") (pyOrSD rec.subcategory "")

/-- `rec["match_score"] = int(max(0, min(100, rec["match_score"] + adj)))`
together with `rec["intent"] = intent`. -/
def adjustRec (intent : String) (rec : ScoredRec) : ScoredRec :=
  { rec with
    match_score :=
      pyInt (max 0 (min 100 ((rec.match_score : ℚ) + intentAdjustmentOf intent rec)))
    intent := intent }

/-! ### Fallback (`_fallback_svd_recommendation`) -/

/-- `_fallback_svd_recommendation`: fatal if the SVD model is not loaded;
asks for `2*top_n` ids, batch-fetches them, scores each fetched meeting by
its matching SVD score (default 3.5).  Returns the `recommendations`
(truncated to `top_n`) and `total_candidates` of the envelope; the
surrounding constant fields are assembled by the orchestrator. -/
def fallbackSvdRecommendation (M : ModelLoader)
    (batchFetch : List ℤ → List RawMeeting) (user_id : ℤ) (top_n : ℕ) :
    Except String (List ScoredRec × ℕ) :=
  if ¬ M.svdLoaded then .error "SVD 모델 로드되지 않음"
  else
    let svd_recommendations := M.svdRecommend user_id (top_n * 2)
    let meeting_ids := svd_recommendations.map (fun r => r.1)
    let meetings := batchFetch meeting_ids
    let scored := meetings.map (fun meeting =>
      let svd_score :=
        ((svd_recommendations.find? (fun r => some r.1 = meeting.meeting_id)).map
          (fun r => r.2)).getD (7/2)
      ({ meeting_id := meeting.meeting_id
         category := meeting.category
         subcategory := meeting.subcategory
         predicted_rating := pyRoundTo svd_score 1
         match_score := min 100 (pyInt (svd_score * 20))
         svd_score := some (pyRoundTo svd_score 2)
         key_points := ["SVD 협업 필터링 기반 추천"]
         reasoning := "과거 참여 이력을 바탕으로 추천된 모임입니다." } : ScoredRec))
    .ok (scored.take top_n, scored.length)

/-! ### Orchestrator (`get_ai_recommendations`) -/

structure SearchTrace where
  steps : List TraceStep
  final_level : ℕ
  final_label : String
  fallback : Bool
  deriving DecidableEq, Repr

/-- `{"steps": ..., "final_level": trace_steps[-1]["level"] if trace_steps
else 0, "final_label": ..., "fallback": fb}`. -/
def mkSearchTrace (steps : List TraceStep) (fb : Bool) : SearchTrace :=
  { steps := steps
    final_level := ((steps.getLast?).map (fun s => s.level)).getD 0
    final_label := ((steps.getLast?).map (fun s => s.label)).getD "L0 원본"
    fallback := fb }

/-- The response envelope.  `top_fallback` models the top-level
`"fallback": True` key that only the fallback branch's dict carries. -/
structure RecommendationResult where
  user_prompt : String
  parsed_query : Query
  total_candidates : ℕ
  recommendations : List ScoredRec
  search_trace : SearchTrace
  top_fallback : Bool := false
  deriving DecidableEq, Repr

/-- The external collaborators, as response oracles.  `getUserContext`
already folds in the default-context substitution on lookup failure;
`search` folds in non-200/transport errors as `[]`. -/
structure Env where
  parse : String → Query
  getUserContext : ℤ → UserCtx
  enrich : Query → UserCtx → Query
  search : SearchPayload → List RawMeeting
  batchFetch : List ℤ → List RawMeeting
  loader : ModelLoader
  reason : UserCtx → ScoredRec → Query → String

/-- Steps 1–3 of `get_ai_recommendations`: parse, context lookup, enrichment,
then the two "should-apply" pops of `time_slot`/`timeSlot` and `vibe`. -/
def enrichedQueryOf (env : Env) (user_prompt : String) (user_id : ℤ) : Query :=
  let parsed_query := env.parse user_prompt
  let user_context := env.getUserContext user_id
  let enriched0 := env.enrich parsed_query user_context
  let enriched1 :=
    if shouldApplyTimeSlot enriched0 then enriched0
    else { enriched0 with timeSlot := none }
  if shouldApplyVibe enriched1 then enriched1
  else { enriched1 with vibe := none }

/-- `get_ai_recommendations`: the main pipeline. -/
def getAiRecommendations (env : Env) (user_prompt : String) (user_id : ℤ)
    (top_n : ℕ) : Except String RecommendationResult :=
  let parsed_query := env.parse user_prompt
  let user_context := env.getUserContext user_id
  let enriched_query := enrichedQueryOf env user_prompt user_id
  let searched := relaxSearch env.search enriched_query user_context
  let candidate_meetings := searched.1
  let trace_steps := searched.2
  if candidate_meetings = [] then
    match fallbackSvdRecommendation env.loader env.batchFetch user_id top_n with
    | .error e => .error e
    | .ok data =>
      let intent := detectIntent user_prompt parsed_query
      .ok { user_prompt := user_prompt
            parsed_query := parsed_query
            total_candidates := data.2
            recommendations := data.1.map (adjustRec intent)
            search_trace := mkSearchTrace trace_steps true
            top_fallback := true }
  else
    let intent := detectIntent user_prompt parsed_query
    match scoreMeetings env.loader user_context candidate_meetings with
    | .error e => .error e
    | .ok scored_meetings =>
      let adjusted := scored_meetings.map (adjustRec intent)
      let top_recommendations :=
        (adjusted.mergeSort (fun a b => decide (b.match_score ≤ a.match_score))).take top_n
      .ok { user_prompt := user_prompt
            parsed_query := parsed_query
            total_candidates := candidate_meetings.length
            recommendations := top_recommendations.map (fun rec =>
              { rec with reasoning := env.reason user_context rec parsed_query })
            search_trace := mkSearchTrace trace_steps false }

/-! ## Helper lemmas -/

/-- When the catalog returns nothing at every level, the ladder runs all five
levels and yields the empty candidate set with a five-step trace. -/
theorem relaxSearch_all_empty (search : SearchPayload → List RawMeeting)
    (hs : ∀ p, search p = []) (q : Query) (ctx : UserCtx) :
    relaxSearch search q ctx =
      ([], [⟨0, "L0 원본", toSpringSearchRequest q ctx, 0⟩,
            ⟨1, "L1 vibe 제거", toSpringSearchRequest (relaxQ1 q) ctx, 0⟩,
            ⟨2, "L2 timeSlot 제거", toSpringSearchRequest (relaxQ2 q) ctx, 0⟩,
            ⟨3, "L3 subcategory 제거", toSpringSearchRequest (relaxQ3 q) ctx, 0⟩,
            ⟨4, "L4 category 제거", toSpringSearchRequest (relaxQ4 q) ctx, 0⟩]) := by
  simp [relaxSearch, hs]

/-- The clamped intent-adjusted score `int(max(0, min(100, x)))` lies in
`[0, 100]` for every rational `x`. -/
theorem pyInt_clamp_bounds (x : ℚ) :
    0 ≤ pyInt (max 0 (min 100 x)) ∧ pyInt (max 0 (min 100 x)) ≤ 100 := by
  have hy0 : (0 : ℚ) ≤ max 0 (min 100 x) := le_max_left _ _
  have hy1 : max 0 (min 100 x) ≤ 100 := max_le (by norm_num) (min_le_left _ _)
  rw [pyInt, if_pos hy0]
  refine ⟨Int.le_floor.mpr (by exact_mod_cast hy0), ?_⟩
  calc ⌊max 0 (min 100 x)⌋ ≤ ⌊(100 : ℚ)⌋ := Int.floor_le_floor hy1
    _ = 100 := by norm_num

/-- Every intent-adjusted record's score is in `[0, 100]`. -/
theorem adjustRec_score_bounds (intent : String) (rec : ScoredRec) :
    0 ≤ (adjustRec intent rec).match_score ∧
      (adjustRec intent rec).match_score ≤ 100 := by
  unfold adjustRec
  exact pyInt_clamp_bounds _

/-! ## Claim theorems -/

/-- **C2.** In every execution of the relaxation search the trace records
exactly one `TraceStep` per attempted level; the recorded levels are exactly
`0, 1, ..., len-1` (strictly increasing from 0, no retry, no skip); between
one and five levels run; and every step before the last recorded zero
results, so no level is ever attempted after a level returned ≥ 1 candidate. -/
theorem relaxSearch_trace_invariant (search : SearchPayload → List RawMeeting)
    (q : Query) (ctx : UserCtx) :
    (relaxSearch search q ctx).2.map (fun s => s.level) =
        List.range (relaxSearch search q ctx).2.length ∧
      1 ≤ (relaxSearch search q ctx).2.length ∧
      (relaxSearch search q ctx).2.length ≤ 5 ∧
      ((relaxSearch search q ctx).2.dropLast.all (fun s => s.count == 0)) = true := by
  unfold relaxSearch
  dsimp only
  split_ifs with h0 h1 h2 h3 <;>
    simp_all [List.range_succ, List.eq_nil_iff_forall_not_mem]

/-- A fully-constrained enriched query used to exercise the ladder. -/
def fullQuery : Query :=
  { category := some "문화", subcategory := some "독서", vibe := some "힐링",
    timeSlot := some "MORNING", confidence := some 1 }

/-- **C3 (counterexample).** The claim says the L4 payload retains the
enriched query's `subcategory` constraint.  It does not: for a query with
`subcategory = "독서"` and an always-empty catalog, the subcategory fields of
the five issued payloads are `[독서, 독서, 독서, none, none]` — at L4 (and
already at L3) `subcategory` is gone. -/
theorem relaxSearch_L4_drops_subcategory_counterexample :
    fullQuery.subcategory = some "독서" ∧
      (relaxSearch (fun _ => []) fullQuery {}).2.map (fun t => t.payload.subcategory) =
        [some "독서", some "독서", some "독서", none, none] := by
  constructor
  · rfl
  · decide

/-- **C3 (amended).** The ladder's final level L4 issues the **L3** query
(not the L2 query) with `category` additionally removed, so the L4 payload
never retains a `subcategory` constraint: for every enriched query and
context, `relaxQ4 q` is `relaxQ3 q` minus `category`, `relaxQ3 q` has no
subcategory, and the payload issued at L4 carries no subcategory field. -/
theorem relaxQ4_is_relaxQ3_minus_category (q : Query) (ctx : UserCtx) :
    relaxQ4 q = { relaxQ3 q with category := none } ∧
      (relaxQ3 q).subcategory = none ∧
      (relaxQ4 q).subcategory = none ∧
      (toSpringSearchRequest (relaxQ4 q) ctx).subcategory = none := by
  refine ⟨rfl, rfl, rfl, ?_⟩
  simp [toSpringSearchRequest, relaxQ4, relaxQ3, relaxQ2, relaxQ1, stripEmpty]

/-- **C8.** The time-of-day normalizer maps `"오전"` to `"MORNING"`, is the
identity on all four canonical values (in particular `"NIGHT" ↦ "NIGHT"`),
returns `none` for `None`/empty input, and passes any other non-empty string
through upper-cased (after stripping) instead of rejecting it. -/
theorem normalizeTimeslot_spec :
    normalizeTimeslot (some "오전") = some "MORNING" ∧
      normalizeTimeslot (some "NIGHT") = some "NIGHT" ∧
      (∀ c ∈ ["MORNING", "AFTERNOON", "EVENING", "NIGHT"],
        normalizeTimeslot (some c) = some c) ∧
      normalizeTimeslot none = none ∧
      normalizeTimeslot (some "") = none ∧
      (∀ s : String, s ≠ "" →
        lookupStr (pyLower (pyStrip s)) timeslotMapping = none →
        normalizeTimeslot (some s) = some (pyUpper (pyStrip s))) := by
  refine ⟨by decide, by decide, by decide, rfl, by decide, ?_⟩
  intro s hs hl
  simp [normalizeTimeslot, hs, hl]

/-- **C8 (witness).** The unknown non-empty string `"주말"` (not in the
mapping) passes through upper-cased — here unchanged, as Hangul is caseless —
and the canonical `"AFTERNOON"` is fixed. -/
theorem normalizeTimeslot_spec_witness :
    normalizeTimeslot (some "주말") = some (pyUpper (pyStrip "주말")) ∧
      normalizeTimeslot (some "AFTERNOON") = some "AFTERNOON" :=
  ⟨normalizeTimeslot_spec.2.2.2.2.2 "주말" (by decide) (by decide),
   normalizeTimeslot_spec.2.2.1 "AFTERNOON" (by decide)⟩

/-- The candidate of the C7 scenario: category `"스포츠"`, base match score
produced by the scorer's rating→score map at predicted rating 4.0. -/
def sportsCandidate : ScoredRec :=
  { meeting_id := some 1
    category := some "스포츠"
    subcategory := some ""
    predicted_rating := 4
    match_score := matchScoreOfRating 4
    key_points := [] }

/-- **C7.** For the prompt `"조용히 카페에서 쉬고 싶어요"` (whatever the
parsed query) the detected intent is QUIET; a predicted rating of 4.0 gives
base match score `round((4-1)/4*100) = 75`; the QUIET adjustment for a
`"스포츠"` candidate is −25; and the final adjusted score is
`max(0, 75-25) = 50` with intent label `"QUIET"`. -/
theorem quiet_cafe_sports_scenario :
    (∀ q : Query, detectIntent "조용히 카페에서 쉬고 싶어요" q = "QUIET") ∧
      matchScoreOfRating 4 = 75 ∧
      intentAdjustmentOf "QUIET" sportsCandidate = -25 ∧
      (adjustRec "QUIET" sportsCandidate).match_score = 50 ∧
      (adjustRec "QUIET" sportsCandidate).intent = "QUIET" := by
  have hbase : matchScoreOfRating 4 = 75 := by
    norm_num [matchScoreOfRating, pyRound]
  have hquiet : (quietWords.any
      (fun w => strContains (pyLower "조용히 카페에서 쉬고 싶어요") w)) = true := by
    decide
  have hadj : intentAdjustmentOf "QUIET" sportsCandidate = -25 := by decide
  refine ⟨fun q => ?_, hbase, hadj, ?_, rfl⟩
  · simp [detectIntent, hquiet]
  · have h50 : (adjustRec "QUIET" sportsCandidate).match_score =
        pyInt (max 0 (min 100 ((matchScoreOfRating 4 : ℚ) +
          intentAdjustmentOf "QUIET" sportsCandidate))) := rfl
    rw [h50, hadj, hbase]
    norm_num [pyInt]

/-- A batch-fetch oracle answering each requested id with a minimal record
carrying that id. -/
def fetchByIds : List ℤ → List RawMeeting :=
  fun ids => ids.map (fun i => { meeting_id := some i })

/-- A model loader whose only ready model is the SVD recommender, answering
every request with the fixed list `recs`. -/
def svdOnlyLoader (recs : List (ℤ × ℚ)) : ModelLoader :=
  { regressorLoaded := false
    featureBuilderLoaded := false
    svdLoaded := true
    build := fun _ _ => none
    predict := fun _ => []
    svdRecommend := fun _ _ => recs }

/-- **C5 (counterexample).** The fallback does not assign
`min(100, round(score*20))`: Python's `int()` truncates.  With the
collaborative model returning `[(11, 4.48)]`, the code assigns
`min(100, int(89.6)) = 89`, while the claimed formula gives
`min(100, round(89.6)) = 90`. -/
theorem fallback_score_rounding_counterexample :
    (fallbackSvdRecommendation (svdOnlyLoader [(11, 112/25)]) fetchByIds 7 1).toOption.map
        (fun d => d.1.map (fun r => r.match_score)) = some [89] ∧
      min 100 (pyRound ((112/25 : ℚ) * 20)) = 90 := by
  constructor
  · norm_num [fallbackSvdRecommendation, svdOnlyLoader, fetchByIds, pyInt,
      Except.toOption, List.find?]
  · norm_num [pyRound]

/-- **C5 (amended).** On the fallback path, a fetched meeting whose id
matches a collaborative-model recommendation with score `s` is assigned
`match_score = min(100, int(s*20))` where `int` truncates toward zero — for
every rational score `s` and user id; and in the spec's scenario
`[(11, 4.2), (12, 3.0)]` with `top_n = 2`, the two ScoredCandidates get
match scores 84 and 60 (where `int` and `round` happen to agree). -/
theorem fallback_score_truncates (s : ℚ) (uid : ℤ) :
    (fallbackSvdRecommendation (svdOnlyLoader [(11, s)]) fetchByIds uid 1).toOption.map
        (fun d => d.1.map (fun r => r.match_score)) = some [min 100 (pyInt (s * 20))] ∧
      (fallbackSvdRecommendation (svdOnlyLoader [(11, 21/5), (12, 3)]) fetchByIds uid 2).toOption.map
        (fun d => d.1.map (fun r => (r.meeting_id, r.match_score))) =
        some [(some 11, 84), (some 12, 60)] := by
  constructor
  · simp [fallbackSvdRecommendation, svdOnlyLoader, fetchByIds,
      Except.toOption, List.find?]
  · norm_num [fallbackSvdRecommendation, svdOnlyLoader, fetchByIds, pyInt,
      Except.toOption, List.find?]

/-- **C6.** If the models are loaded, the regressor returns one rating per
row, and feature building fails for exactly one of three candidates handed to
the scorer, then the scorer returns normally (`.ok`, no exception) with
exactly two ScoredCandidates. -/
theorem scoreMeetings_skips_single_failure (M : ModelLoader) (ctx : UserCtx)
    (a b c : RawMeeting)
    (hreg : M.regressorLoaded = true)
    (hfb : M.featureBuilderLoaded = true)
    (hpred : ∀ rows, (M.predict rows).length = rows.length)
    (hone : ([a, b, c].countP
        (fun raw => (M.build (buildUserModel ctx) (normalizeMeeting raw)).isNone)) = 1) :
    ∃ recs, scoreMeetings M ctx [a, b, c] = .ok recs ∧ recs.length = 2 := by
  unfold scoreMeetings
  rw [hreg, hfb]
  simp only [not_true, if_false]
  rcases ha : M.build (buildUserModel ctx) (normalizeMeeting a) with _ | fa <;>
    rcases hb : M.build (buildUserModel ctx) (normalizeMeeting b) with _ | fb <;>
    rcases hc : M.build (buildUserModel ctx) (normalizeMeeting c) with _ | fc <;>
      simp_all [List.countP_cons, hpred]

/-- A loader whose feature builder fails exactly on the meeting with id 2 and
whose regressor predicts rating 4 for every row. -/
def failOnId2Loader : ModelLoader :=
  { regressorLoaded := true
    featureBuilderLoaded := true
    svdLoaded := false
    build := fun _ m => if m.meeting_id = some 2 then none else some ({}, [0])
    predict := fun rows => rows.map (fun _ => 4)
    svdRecommend := fun _ _ => [] }

/-- **C6 (witness).** Three candidates with ids 1, 2, 3, where feature
building fails exactly for id 2: the scorer returns two ScoredCandidates. -/
theorem scoreMeetings_skips_single_failure_witness :
    ∃ recs, scoreMeetings failOnId2Loader {}
        [{ meeting_id := some 1 }, { meeting_id := some 2 }, { meeting_id := some 3 }] =
          .ok recs ∧ recs.length = 2 :=
  scoreMeetings_skips_single_failure failOnId2Loader {} _ _ _ rfl rfl
    (fun rows => by simp [failOnId2Loader])
    (by simp [failOnId2Loader, normalizeMeeting, List.countP_cons])

/-- **C4.** If every ladder level returns an empty candidate list (here: the
catalog answers every payload with `[]`) and the collaborative fallback model
is loaded, the pipeline returns normally and the envelope's trace has
`fallback = true` and `final_level = 4` (and the fallback envelope's
top-level `fallback` key is `true`). -/
theorem fallback_activation (env : Env) (prompt : String) (uid : ℤ) (topN : ℕ)
    (hs : ∀ p, env.search p = [])
    (hl : env.loader.svdLoaded = true) :
    ∃ res, getAiRecommendations env prompt uid topN = .ok res ∧
      res.search_trace.fallback = true ∧ res.search_trace.final_level = 4 ∧
      res.top_fallback = true := by
  unfold getAiRecommendations
  dsimp only
  rw [relaxSearch_all_empty env.search hs]
  unfold fallbackSvdRecommendation
  rw [hl]
  simp [mkSearchTrace]

/-- An environment whose catalog always answers `[]` and whose SVD model is
loaded and recommends meeting 11 with score 3. -/
def emptyCatalogEnv : Env :=
  { parse := fun _ => {}
    getUserContext := fun _ => {}
    enrich := fun q _ => q
    search := fun _ => []
    batchFetch := fetchByIds
    loader := svdOnlyLoader [(11, 3)]
    reason := fun _ _ _ => "" }

/-- **C4 (witness).** The always-empty catalog with a loaded SVD model
activates the fallback with `final_level = 4`. -/
theorem fallback_activation_witness :
    ∃ res, getAiRecommendations emptyCatalogEnv "x" 1 5 = .ok res ∧
      res.search_trace.fallback = true ∧ res.search_trace.final_level = 4 ∧
      res.top_fallback = true :=
  fallback_activation emptyCatalogEnv "x" 1 5 (fun _ => rfl) rfl

/-- **C10.** If the relaxation search returns at least one candidate but
feature building fails for every returned candidate, the pipeline (with
loaded regressor and feature builder) returns normally with an empty
recommendations list and `trace.fallback = false`; the fallback recommender
is never consulted — the conclusion holds whether or not the SVD model is
even loaded. -/
theorem empty_scoring_is_not_fallback (env : Env) (prompt : String) (uid : ℤ)
    (topN : ℕ)
    (hreg : env.loader.regressorLoaded = true)
    (hfb : env.loader.featureBuilderLoaded = true)
    (hne : (relaxSearch env.search (enrichedQueryOf env prompt uid)
      (env.getUserContext uid)).1 ≠ [])
    (hfail : ∀ raw ∈ (relaxSearch env.search (enrichedQueryOf env prompt uid)
        (env.getUserContext uid)).1,
      env.loader.build (buildUserModel (env.getUserContext uid))
        (normalizeMeeting raw) = none) :
    ∃ res, getAiRecommendations env prompt uid topN = .ok res ∧
      res.recommendations = [] ∧ res.search_trace.fallback = false ∧
      res.top_fallback = false := by
  have hscore : scoreMeetings env.loader (env.getUserContext uid)
      (relaxSearch env.search (enrichedQueryOf env prompt uid)
        (env.getUserContext uid)).1 = .ok [] := by
    unfold scoreMeetings
    rw [hreg, hfb]
    have hnil : (relaxSearch env.search (enrichedQueryOf env prompt uid)
        (env.getUserContext uid)).1.filterMap (fun raw =>
          (env.loader.build (buildUserModel (env.getUserContext uid))
            (normalizeMeeting raw)).map (fun fx =>
              (normalizeMeeting raw, fx.1, fx.2))) = [] := by
      rw [List.filterMap_eq_nil_iff]
      intro raw hraw
      rw [hfail raw hraw]
      rfl
    simp [hnil]
  unfold getAiRecommendations
  dsimp only
  rw [if_neg hne, hscore]
  simp [mkSearchTrace]

/-- An environment whose catalog returns one fixed meeting at every level but
whose feature builder fails on every candidate; the SVD model is *not*
loaded, yet the pipeline still succeeds without it. -/
def buildAlwaysFailsEnv : Env :=
  { parse := fun _ => {}
    getUserContext := fun _ => {}
    enrich := fun q _ => q
    search := fun _ => [{ meeting_id := some 1 }]
    batchFetch := fun _ => []
    loader :=
      { regressorLoaded := true
        featureBuilderLoaded := true
        svdLoaded := false
        build := fun _ _ => none
        predict := fun rows => rows.map (fun _ => 4)
        svdRecommend := fun _ _ => [] }
    reason := fun _ _ _ => "" }

/-- **C10 (witness).** With candidates found at L0 but every feature build
failing — and no SVD model loaded — the pipeline returns an empty, non-fallback
recommendation list. -/
theorem empty_scoring_is_not_fallback_witness :
    ∃ res, getAiRecommendations buildAlwaysFailsEnv "x" 1 5 = .ok res ∧
      res.recommendations = [] ∧ res.search_trace.fallback = false ∧
      res.top_fallback = false :=
  empty_scoring_is_not_fallback buildAlwaysFailsEnv "x" 1 5 rfl rfl
    (by simp [relaxSearch, buildAlwaysFailsEnv])
    (fun raw _ => rfl)

/-- **C1.** Whenever the pipeline returns normally — on the scored path or
the fallback path, for any predicted ratings, collaborative scores and intent
adjustments the oracles produce — every returned candidate's final
(intent-adjusted) match score is an integer in `[0, 100]`. -/
theorem match_score_in_range (env : Env) (prompt : String) (uid : ℤ)
    (topN : ℕ) (res : RecommendationResult) (r : ScoredRec)
    (hok : getAiRecommendations env prompt uid topN = .ok res)
    (hr : r ∈ res.recommendations) :
    0 ≤ r.match_score ∧ r.match_score ≤ 100 := by
  unfold getAiRecommendations at hok
  dsimp only at hok
  by_cases hempty : (relaxSearch env.search (enrichedQueryOf env prompt uid)
      (env.getUserContext uid)).1 = []
  · rw [if_pos hempty] at hok
    rcases hfb : fallbackSvdRecommendation env.loader env.batchFetch uid topN with e | data
    · rw [hfb] at hok; cases hok
    · rw [hfb] at hok
      simp only [Except.ok.injEq] at hok
      subst hok
      rcases List.mem_map.mp hr with ⟨r0, _, rfl⟩
      exact adjustRec_score_bounds _ r0
  · rw [if_neg hempty] at hok
    rcases hsc : scoreMeetings env.loader (env.getUserContext uid)
        (relaxSearch env.search (enrichedQueryOf env prompt uid)
          (env.getUserContext uid)).1 with e | scored
    · rw [hsc] at hok; cases hok
    · rw [hsc] at hok
      simp only [Except.ok.injEq] at hok
      subst hok
      rcases List.mem_map.mp hr with ⟨r1, hr1, rfl⟩
      have hr1' : r1 ∈ (scored.map (adjustRec (detectIntent prompt (env.parse prompt)))).mergeSort
          (fun a b => decide (b.match_score ≤ a.match_score)) :=
        List.take_subset _ _ hr1
      rw [List.mem_mergeSort] at hr1'
      rcases List.mem_map.mp hr1' with ⟨r2, _, rfl⟩
      simpa using adjustRec_score_bounds _ r2

/-- The fallback recommendation for meeting 11 with SVD score 3, before
intent adjustment. -/
def fbRecBase : ScoredRec :=
  { meeting_id := some 11, category := none, subcategory := none,
    predicted_rating := 3, match_score := 60,
    key_points := ["SVD 협업 필터링 기반 추천"], svd_score := some 3,
    intent := "", reasoning := "과거 참여 이력을 바탕으로 추천된 모임입니다." }

/-- `fbRecBase` after the (neutral) intent adjustment. -/
def fbRec : ScoredRec := { fbRecBase with intent := "NEUTRAL" }

/-- The full envelope `emptyCatalogEnv` produces for prompt `"x"`, user 1,
`top_n = 2`. -/
def fbResult : RecommendationResult :=
  { user_prompt := "x", parsed_query := {}, total_candidates := 1,
    recommendations := [fbRec],
    search_trace :=
      { steps := [⟨0, "L0 원본", toSpringSearchRequest {} {}, 0⟩,
                  ⟨1, "L1 vibe 제거", toSpringSearchRequest {} {}, 0⟩,
                  ⟨2, "L2 timeSlot 제거", toSpringSearchRequest {} {}, 0⟩,
                  ⟨3, "L3 subcategory 제거", toSpringSearchRequest {} {}, 0⟩,
                  ⟨4, "L4 category 제거", toSpringSearchRequest {} {}, 0⟩],
        final_level := 4, final_label := "L4 category 제거", fallback := true },
    top_fallback := true }

/-- A complete concrete run of the pipeline: the always-empty catalog
environment yields exactly the envelope `fbResult`. -/
theorem emptyCatalogEnv_eval :
    getAiRecommendations emptyCatalogEnv "x" 1 2 = .ok fbResult := by
  have hfb : fallbackSvdRecommendation emptyCatalogEnv.loader
      emptyCatalogEnv.batchFetch 1 2 = .ok ([fbRecBase], 1) := by
    norm_num [fallbackSvdRecommendation, emptyCatalogEnv, svdOnlyLoader, fetchByIds,
      pyInt, pyRoundTo, pyRound, List.find?, fbRecBase]
  have hadj : adjustRec "NEUTRAL" fbRecBase = fbRec := by
    have hz : intentAdjustmentOf "NEUTRAL" fbRecBase = 0 := by decide
    unfold adjustRec
    rw [hz]
    norm_num [fbRecBase, fbRec, pyInt]
  have hint : detectIntent "x" (emptyCatalogEnv.parse "x") = "NEUTRAL" := by decide
  have henr : enrichedQueryOf emptyCatalogEnv "x" 1 = {} := rfl
  unfold getAiRecommendations
  dsimp only
  rw [henr, relaxSearch_all_empty emptyCatalogEnv.search (fun _ => rfl) {}
    (emptyCatalogEnv.getUserContext 1)]
  rw [if_pos rfl, hfb]
  dsimp only
  rw [hint]
  simp [mkSearchTrace, fbResult, hadj, emptyCatalogEnv, relaxQ1, relaxQ2, relaxQ3,
    relaxQ4]

/-- **C1 (witness).** The concrete fallback run returns the candidate
`fbRec`, whose final match score 60 is within `[0, 100]`. -/
theorem match_score_in_range_witness :
    0 ≤ fbRec.match_score ∧ fbRec.match_score ≤ 100 :=
  match_score_in_range emptyCatalogEnv "x" 1 2 fbResult fbRec emptyCatalogEnv_eval
    (by simp [fbResult])

/-- **C9.** The pipeline is a deterministic function of the parsed query,
user context, and catalog/model/rationale responses: two runs with equal
environments (all external responses equal pointwise at every call), prompts,
user ids and `top_n` produce equal envelopes — in particular the same ranked
candidate order (ids and match scores in order) and the identical trace. -/
theorem pipeline_deterministic (env₁ env₂ : Env) (p₁ p₂ : String)
    (u₁ u₂ : ℤ) (n₁ n₂ : ℕ)
    (henv : env₁ = env₂) (hp : p₁ = p₂) (hu : u₁ = u₂) (hn : n₁ = n₂) :
    getAiRecommendations env₁ p₁ u₁ n₁ = getAiRecommendations env₂ p₂ u₂ n₂ ∧
      (getAiRecommendations env₁ p₁ u₁ n₁).toOption.map (fun res =>
          res.recommendations.map (fun r => (r.meeting_id, r.match_score))) =
        (getAiRecommendations env₂ p₂ u₂ n₂).toOption.map (fun res =>
          res.recommendations.map (fun r => (r.meeting_id, r.match_score))) ∧
      (getAiRecommendations env₁ p₁ u₁ n₁).toOption.map (fun res => res.search_trace) =
        (getAiRecommendations env₂ p₂ u₂ n₂).toOption.map (fun res => res.search_trace) := by
  subst henv hp hu hn
  exact ⟨rfl, rfl, rfl⟩

/-- **C9 (witness).** Two identical concrete runs coincide. -/
theorem pipeline_deterministic_witness :
    getAiRecommendations emptyCatalogEnv "x" 1 2 =
        getAiRecommendations emptyCatalogEnv "x" 1 2 ∧
      (getAiRecommendations emptyCatalogEnv "x" 1 2).toOption.map (fun res =>
          res.recommendations.map (fun r => (r.meeting_id, r.match_score))) =
        (getAiRecommendations emptyCatalogEnv "x" 1 2).toOption.map (fun res =>
          res.recommendations.map (fun r => (r.meeting_id, r.match_score))) ∧
      (getAiRecommendations emptyCatalogEnv "x" 1 2).toOption.map
          (fun res => res.search_trace) =
        (getAiRecommendations emptyCatalogEnv "x" 1 2).toOption.map
          (fun res => res.search_trace) :=
  pipeline_deterministic emptyCatalogEnv emptyCatalogEnv "x" "x" 1 1 2 2 rfl rfl rfl rfl

end ItDa
